import Mathlib

/-!
# Verification of the smc-python interface-configuration subsystem

Shallow embedding of `smc/core/interfaces.py` (the `InterfaceModifier`,
`InterfaceBuilder` and `Interface`/`PhysicalInterface` hierarchy) together
with theorems settling the frozen claims about it.

Conventions of the embedding:
* Python dicts holding wire data become Lean structures whose optional keys
  are `Option` fields (`none` = key absent or value `None`; the code under
  scrutiny inspects them only through `dict.get`/`getattr`, which conflate
  the two).
* Python exceptions become an explicit `Err` type; functions that can raise
  return `Except Err _`.
* In-place mutation of the JSON tree becomes a pure transformation that
  returns the updated tree.
-/

namespace Smc

/-- Python exceptions raised (directly or via missing keys/attributes) by the
code paths modelled here. -/
inductive Err where
  | engineCommandFailed
  | updateElementFailed
  | keyError
  | typeError
  | indexError
  | attributeError
  deriving DecidableEq, Repr

/-- The six engine-global interface role flags carried by sub-interfaces
(spec §3).  `InterfaceModifier.set_unset` receives the flag to sweep as a
string attribute name; we model the name by this enumeration. -/
inductive RoleAttr where
  | primary_mgt
  | backup_mgt
  | primary_heartbeat
  | backup_heartbeat
  | outgoing
  | auth_request
  deriving DecidableEq, Repr

/-- Modelled from the spec: the uniform attribute surface of the
sub-interface variants (`smc/core/sub_interfaces.py` is not part of the
given sources; spec §4.1 and §6 describe each variant as a wire dict
`{type_tag: fields}` with fields `address?`, `network_value?`, `nicid`,
`nodeid?`, the six boolean role flags, plus — for inline/capture variants —
`logical_interface_ref`, `failure_mode` and `zone_ref`.  `getattr` on a
variant returns the dict entry or `None` when the key is absent, and
`setattr` writes the entry).  The type tag of the wrapping singleton dict is
carried in the `tag` field. -/
structure SubIfData where
  tag : String
  nicid : String
  address : Option String := none
  network_value : Option String := none
  nodeid : Option Nat := none
  primary_mgt : Option Bool := none
  backup_mgt : Option Bool := none
  primary_heartbeat : Option Bool := none
  backup_heartbeat : Option Bool := none
  outgoing : Option Bool := none
  auth_request : Option Bool := none
  logical_interface_ref : Option String := none
  failure_mode : Option String := none
  zone_ref : Option String := none
  deriving DecidableEq, Repr

/-- `getattr(sub_interface, attribute)` for a role flag. -/
def getAttr (s : SubIfData) : RoleAttr → Option Bool
  | .primary_mgt => s.primary_mgt
  | .backup_mgt => s.backup_mgt
  | .primary_heartbeat => s.primary_heartbeat
  | .backup_heartbeat => s.backup_heartbeat
  | .outgoing => s.outgoing
  | .auth_request => s.auth_request

/-- `setattr(sub_interface, attribute, b)` for a role flag. -/
def setAttr (s : SubIfData) (a : RoleAttr) (b : Bool) : SubIfData :=
  match a with
  | .primary_mgt => {s with primary_mgt := some b}
  | .backup_mgt => {s with backup_mgt := some b}
  | .primary_heartbeat => {s with primary_heartbeat := some b}
  | .backup_heartbeat => {s with backup_heartbeat := some b}
  | .outgoing => {s with outgoing := some b}
  | .auth_request => {s with auth_request := some b}

/-- Fields of a top-level interface (or nested VLAN interface) wire dict,
parameterised by the type of the `vlanInterfaces` children so the full tree
can be tied recursively (wire shape of spec §6). `interface_id` is the one
key the schema makes mandatory; the rest are `Option` (absent or `None`).
Each element of `link` is a link dict, of which only the `href` entry is
ever read. -/
structure IntfFields (V : Type) where
  interface_id : String
  name : Option String := none
  interfaces : Option (List SubIfData) := none
  vlanInterfaces : Option (List V) := none
  zone_ref : Option String := none
  link : Option (List (Option String)) := none
  virtual_mapping : Option String := none
  virtual_resource_name : Option String := none
  deriving DecidableEq, Repr

/-- A top-level interface (or VLAN child) wire dict. -/
inductive IntfData where
  | mk : IntfFields IntfData → IntfData

/-- Projection to the fields of the dict. -/
def IntfData.f : IntfData → IntfFields IntfData
  | .mk x => x

/-- Truthiness of `d.get(key)` for a list-valued key: present and non-empty. -/
def truthyL {α : Type} : Option (List α) → Bool
  | some (_ :: _) => true
  | _ => false

/-- Is the first list a prefix of the second? (kernel-computable) -/
def isPrefixList : List Char → List Char → Bool
  | [], _ => true
  | _ :: _, [] => false
  | a :: as, b :: bs => a == b && isPrefixList as bs

/-- Fuel-driven splitter over character lists; the fuel is an upper bound on
the number of characters consumed, so `fuel = s.length` is always enough. -/
def splitFuel (sep : List Char) : Nat → List Char → List Char → List (List Char)
  | 0, s, acc => [acc.reverse ++ s]
  | Nat.succ n, s, acc =>
    match s with
    | [] => [acc.reverse]
    | c :: rest =>
      if isPrefixList sep s then acc.reverse :: splitFuel sep n (s.drop sep.length) []
      else splitFuel sep n rest (c :: acc)

/-- Python `s.split(sep)` for a non-empty separator (kernel-computable
counterpart of `String.splitOn`, which does not reduce in the kernel). -/
def strSplitOn (s sep : String) : List String :=
  if sep.data.isEmpty then [s]
  else (splitFuel sep.data s.data.length s.data []).map String.mk

/-- Python `c in s` for a single character (kernel-computable counterpart
of `String.contains`). -/
def strContainsChar (s : String) (c : Char) : Bool :=
  s.data.contains c

/-- Python `sep.join(parts)` (kernel-computable counterpart of
`String.intercalate`). -/
def strIntercalate (sep : String) : List String → String
  | [] => ""
  | [x] => x
  | x :: xs => x ++ sep ++ strIntercalate sep xs

/-- Python `needle in hay` for strings (substring containment). -/
def strIn (needle hay : String) : Bool :=
  (strSplitOn hay needle).length > 1

/-- `typeof` of the `TunnelInterface` class (src line 671). -/
def tunnelTypeof : String := "tunnel_interface"

/-- `typeof` of the `PhysicalInterface` class (src line 771). -/
def physicalTypeof : String := "physical_interface"

/-- An element of the list returned by `Interface.sub_interfaces()`
(src lines 392-434): either a decoded sub-interface variant (wrapping one
entry of an `interfaces` array) or a `PhysicalVlanInterface` wrapper around
an address-less VLAN dict. -/
inductive SubElem where
  | sub (s : SubIfData)
  | physVlan (d : IntfData)

mutual
/-- `inner` of `Interface.sub_interfaces` (src lines 418-433): if the dict
has a non-empty `interfaces` array, yield its decoded entries; else if it has
a non-empty `vlanInterfaces` array, recurse into each VLAN child; else, for
non-tunnel interfaces whose `interface_id` contains a dot, yield the dict
itself as an address-less `PhysicalVlanInterface`.  `tpo` is `self.typeof` of
the top-level interface on which `sub_interfaces()` was called. -/
def innerSubs (tpo : String) : IntfData → List SubElem
  | .mk ⟨iid, nm, ifs, vls, z, lk, vm, vrn⟩ =>
    if truthyL ifs then (ifs.getD []).map SubElem.sub
    else if truthyL vls then
      (match vls with
       | some l => innerSubsList tpo l
       | none => [])
    else if tpo != tunnelTypeof && strContainsChar iid '.' then
      [SubElem.physVlan (.mk ⟨iid, nm, ifs, vls, z, lk, vm, vrn⟩)]
    else []

/-- Recursion of `inner` over the `vlanInterfaces` children, in order. -/
def innerSubsList (tpo : String) : List IntfData → List SubElem
  | [] => []
  | d :: ds => innerSubs tpo d ++ innerSubsList tpo ds
end

mutual
/-- Pure counterpart of mutating every sub-interface visited by
`sub_interfaces()` through `g`: `g` is applied to exactly the entries that
`innerSubs` yields as `SubElem.sub`, in place in the tree.  Address-less
VLAN elements (`SubElem.physVlan`) are left unchanged: `set_unset` and the
non-CVI branch of `set_auth_request` skip them explicitly via
`isinstance(..., PhysicalVlanInterface)`, and the CVI branch of
`set_auth_request` reads attribute `nicid` on them, which the given sources
do not define for that wrapper — `set_auth_request_branches` excludes such
elements by its `hnov` hypothesis (`isDecodedSub` everywhere), so nothing
is asserted about that undefined case. -/
def mapDirectSubs (g : SubIfData → SubIfData) : IntfData → IntfData
  | .mk ⟨iid, nm, ifs, vls, z, lk, vm, vrn⟩ =>
    if truthyL ifs then .mk ⟨iid, nm, some ((ifs.getD []).map g), vls, z, lk, vm, vrn⟩
    else if truthyL vls then
      .mk ⟨iid, nm, ifs,
        (match vls with
         | some l => some (mapDirectSubsList g l)
         | none => vls), z, lk, vm, vrn⟩
    else .mk ⟨iid, nm, ifs, vls, z, lk, vm, vrn⟩

/-- `mapDirectSubs` over a list of VLAN children. -/
def mapDirectSubsList (g : SubIfData → SubIfData) : List IntfData → List IntfData
  | [] => []
  | d :: ds => mapDirectSubs g d :: mapDirectSubsList g ds
end

/-- The action of a sweep on one element of the `sub_interfaces()` list:
decoded sub-interfaces are transformed, address-less VLAN elements are kept. -/
def SubElem.onSub (g : SubIfData → SubIfData) : SubElem → SubElem
  | .sub s => .sub (g s)
  | .physVlan d => .physVlan d

mutual
/-- Mutating the visited sub-interfaces and then flattening is the same as
flattening and then transforming each flattened element. -/
theorem innerSubs_map (tpo : String) (g : SubIfData → SubIfData) :
    (d : IntfData) →
      innerSubs tpo (mapDirectSubs g d) = (innerSubs tpo d).map (SubElem.onSub g)
  | .mk ⟨iid, nm, some (a :: li), vls, z, lk, vm, vrn⟩ => by
    simp [innerSubs, mapDirectSubs, truthyL, SubElem.onSub]
  | .mk ⟨iid, nm, some [], some (v :: lv), z, lk, vm, vrn⟩ => by
    have h := innerSubsList_map tpo g (v :: lv)
    simpa [innerSubs, mapDirectSubs, truthyL] using h
  | .mk ⟨iid, nm, none, some (v :: lv), z, lk, vm, vrn⟩ => by
    have h := innerSubsList_map tpo g (v :: lv)
    simpa [innerSubs, mapDirectSubs, truthyL] using h
  | .mk ⟨iid, nm, some [], some [], z, lk, vm, vrn⟩ => by
    simp [innerSubs, mapDirectSubs, truthyL]
    split <;> simp [SubElem.onSub]
  | .mk ⟨iid, nm, some [], none, z, lk, vm, vrn⟩ => by
    simp [innerSubs, mapDirectSubs, truthyL]
    split <;> simp [SubElem.onSub]
  | .mk ⟨iid, nm, none, some [], z, lk, vm, vrn⟩ => by
    simp [innerSubs, mapDirectSubs, truthyL]
    split <;> simp [SubElem.onSub]
  | .mk ⟨iid, nm, none, none, z, lk, vm, vrn⟩ => by
    simp [innerSubs, mapDirectSubs, truthyL]
    split <;> simp [SubElem.onSub]

/-- List version of `innerSubs_map` over the VLAN children. -/
theorem innerSubsList_map (tpo : String) (g : SubIfData → SubIfData) :
    (l : List IntfData) →
      innerSubsList tpo (mapDirectSubsList g l)
        = (innerSubsList tpo l).map (SubElem.onSub g)
  | [] => by simp [innerSubsList, mapDirectSubsList]
  | d :: ds => by
    have h1 := innerSubs_map tpo g d
    have h2 := innerSubsList_map tpo g ds
    simp [innerSubsList, mapDirectSubsList, h1, h2]
end

/-- A decoded top-level interface as built by `InterfaceModifier.byEngine`
(src 1959-1980): the meta of the instantiated class (`name`, `type`, `href`)
together with the wire dict installed as its `data`. -/
structure Intf where
  name : String
  typeof : String
  href : Option String
  data : IntfData

/-- The engine snapshot fields the modelled code reads: the
`physicalInterfaces` array (each element a JSON dict, modelled as its list
of key/value items in iteration order) and the engine `type` string. -/
structure EngineData where
  physicalInterfaces : List (List (String × IntfData))
  typ : String

/-- `InterfaceModifier` (src 1945-2100): the decoded interface list plus the
back reference to the engine snapshot. -/
structure Modifier where
  _data : List Intf
  engine : EngineData

/-- `extract_sub_interface` (src 2398-2401): decode the first entry of the
dict's `interfaces` array, `None` when the array is empty, `KeyError` when
the key is absent. -/
def extract_sub_interface (d : IntfData) : Except Err (Option SubIfData) :=
  match d.f.interfaces with
  | none => .error .keyError
  | some l => .ok l.head?

/-- `InterfaceModifier.href_from_link` (src 2019-2023): the first truthy
`href` among the link dicts, `None` otherwise. -/
def href_from_link : List (Option String) → Option String
  | [] => none
  | e :: rest =>
    match e with
    | some s => if s ≠ "" then some s else href_from_link rest
    | none => href_from_link rest

/-- Modelled from the spec: `isinstance(x, InlineInterface)` over the
decoded variants.  Spec §3 lists `InlineInterface`, `InlineL2FWInterface`
and `InlineIPSInterface` as the inline variants (the latter two specialise
the first in `smc/core/sub_interfaces.py`, which is not among the given
sources), so the check holds exactly for their three type tags. -/
def isInlineTag (tag : String) : Bool :=
  tag == "inline_interface" || tag == "inline_l2fw_interface" ||
    tag == "inline_ips_interface"

/-- The type tag of `ClusterVirtualInterface` (spec §6). -/
def cviTag : String := "cluster_virtual_interface"

/-- The display name `byEngine` synthesizes for one decoded entry
(src 1964-1971): inline pairs get a two-sided name from the nicid
(an `IndexError` when the nicid has no `-` and no explicit name exists),
everything else `"Interface {interface_id}"`; an explicit `name` key wins. -/
def intfDisplayName (data : IntfData) (subif : Option SubIfData) :
    Except Err String :=
  match subif with
  | some s =>
    if isInlineTag s.tag then
      match data.f.name with
      | some n => .ok n
      | none =>
        match strSplitOn s.nicid "-" with
        | n0 :: n1 :: _ => .ok s!"Interface {n0} - Interface {n1} (Inline)"
        | _ => .error .indexError
    else
      match data.f.name with
      | some n => .ok n
      | none => .ok s!"Interface {data.f.interface_id}"
  | none =>
    match data.f.name with
    | some n => .ok n
    | none => .ok s!"Interface {data.f.interface_id}"

/-- The `href` resolution of `byEngine` (src 1976): passing an absent
`link` to `href_from_link` iterates over `None`, a `TypeError`. -/
def intfHref (data : IntfData) : Except Err (Option String) :=
  match data.f.link with
  | none => .error .typeError
  | some l => .ok (href_from_link l)

/-- Body of the `byEngine` loop (src 1962-1979) for one `(typeof, data)`
item: synthesize the display name, resolve the `href`, and wrap the dict
into the class looked up by the type tag. -/
def processEntry (p : String × IntfData) : Except Err Intf :=
  match extract_sub_interface p.2 with
  | .error e => .error e
  | .ok subif =>
    match intfDisplayName p.2 subif with
    | .error e => .error e
    | .ok name =>
      match intfHref p.2 with
      | .error e => .error e
      | .ok href => .ok ⟨name, p.1, href, p.2⟩

/-- `InterfaceModifier.byEngine` (src 1959-1980): decode every
`(typeof, data)` item of every `physicalInterfaces` element, in order. -/
def byEngine (e : EngineData) : Except Err Modifier := do
  let interfaces ← e.physicalInterfaces.flatten.mapM processEntry
  pure ⟨interfaces, e⟩

/-- `InterfaceModifier.data` property (src 2096-2100): re-serialize the
decoded interfaces into the engine snapshot's `physicalInterfaces` array as
singleton dicts keyed by each interface's type tag. -/
def Modifier.dataProp (m : Modifier) : EngineData :=
  {m.engine with physicalInterfaces := m._data.map (fun intf => [(intf.typeof, intf.data)])}

/-- One step of the `get` scan (src 1988-2006): does this element of
`sub_interfaces()` resolve `interface_id` to the enclosing interface? -/
def subMatches (interface_id : String) (intf : Intf) : SubElem → Bool
  | .physVlan v => (strSplitOn v.f.interface_id ".").headD "" == interface_id
  | .sub s =>
    (strContainsChar s.nicid '-' && (strSplitOn s.nicid "-").contains interface_id)
    || (strContainsChar s.nicid '.' && interface_id == intf.data.f.interface_id)
    || (interface_id == s.nicid)

/-- The per-interface test of the `get` scan (src 1984-2015): an interface
with sub-interfaces matches when some element resolves the id; one with no
sub-interfaces matches on its own `interface_id`. -/
def intfMatches (interface_id : String) (intf : Intf) : Bool :=
  match innerSubs intf.typeof intf.data with
  | [] => intf.data.f.interface_id == interface_id
  | all_subs => all_subs.any (subMatches interface_id intf)

/-- `InterfaceModifier.get` (src 1982-2017): return the first interface the
scan resolves, else raise `EngineCommandFailed`. -/
def Modifier.get (m : Modifier) (interface_id : String) : Except Err Intf :=
  match m._data.find? (intfMatches interface_id) with
  | some intf => .ok intf
  | none => .error .engineCommandFailed

/-- Dotted-quad IPv4 parse, for the `ipaddress` checks of `set_unset`. -/
def parseIPv4 (s : String) : Option Nat :=
  match (strSplitOn s ".").mapM String.toNat? with
  | some [a, b, c, d] =>
    if a < 256 && b < 256 && c < 256 && d < 256 then
      some (((a * 256 + b) * 256 + c) * 256 + d)
    else none
  | _ => none

/-- CIDR parse to (base address, prefix length). -/
def parseCidr (s : String) : Option (Nat × Nat) :=
  match strSplitOn s "/" with
  | [ip, len] => do
    let a ← parseIPv4 ip
    let l ← len.toNat?
    if l ≤ 32 then some (a, l) else none
  | [ip] => do
    let a ← parseIPv4 ip
    some (a, 32)
  | _ => none

/-- `ipaddress.ip_address(a) in ipaddress.ip_network(net)` for IPv4.
Inputs on which the Python library would raise `ValueError` are treated as
non-membership; every claim below exercises only the `address=None` path,
which never reaches this check. -/
def ipInNet (a net : String) : Bool :=
  match parseIPv4 a, parseCidr net with
  | some x, some (n, l) => x / 2 ^ (32 - l) == n / 2 ^ (32 - l)
  | _, _ => false

/-- The per-sub-interface update of `set_unset` (src 2036-2050): skip when
the attribute is `None`; otherwise set it true on a nicid match (further
qualified by the address-in-network test when an address is given) and
false on a mismatch. -/
def setUnsetSub (interface_id : String) (attr : RoleAttr)
    (address : Option String) (s : SubIfData) : SubIfData :=
  if (getAttr s attr).isSome then
    if s.nicid == interface_id then
      match address with
      | some a =>
        if ipInNet a (s.network_value.getD "") then setAttr s attr true
        else setAttr s attr false
      | none => setAttr s attr true
    else setAttr s attr false
  else s

/-- `InterfaceModifier.set_unset` (src 2029-2050): sweep every non-VLAN
sub-interface of every interface of the engine.  The Python `interface_id`
argument is compared through `str(...)`; the model takes the string. -/
def Modifier.set_unset (m : Modifier) (interface_id : String)
    (attr : RoleAttr) (address : Option String) : Modifier :=
  {m with _data := m._data.map (fun intf =>
    {intf with data := mapDirectSubs (setUnsetSub interface_id attr address) intf.data})}

/-- The per-sub-interface update of the CVI branch of `set_auth_request`
(src 2068-2081): only a CVI whose nicid (and, when given, address) matches
keeps `auth_request`; every other sub-interface has it set false. -/
def authReqCvi (interface_id : String) (address : Option String)
    (s : SubIfData) : SubIfData :=
  if s.nicid == interface_id then
    if s.tag == cviTag then
      match address with
      | some a =>
        if s.address == some a then {s with auth_request := some true}
        else {s with auth_request := some false}
      | none => {s with auth_request := some true}
    else {s with auth_request := some false}
  else {s with auth_request := some false}

/-- The per-sub-interface update of the non-CVI branch of
`set_auth_request` (src 2083-2094). -/
def authReqElse (interface_id : String) (address : Option String)
    (s : SubIfData) : SubIfData :=
  if s.nicid == interface_id then
    match address with
    | some a =>
      if s.address == some a then {s with auth_request := some true}
      else {s with auth_request := some false}
    | none => {s with auth_request := some true}
  else {s with auth_request := some false}

/-- `isinstance(t, ClusterVirtualInterface)` over a `sub_interfaces()`
element. -/
def hasCviElem : SubElem → Bool
  | .sub s => s.tag == cviTag
  | .physVlan _ => false

/-- `InterfaceModifier.set_auth_request` (src 2052-2094): a no-op for
engine types containing `master`, `layer2` or `ips`; otherwise, per
top-level interface, sweep with the CVI branch when that interface's
sub-interfaces contain a CVI and with the plain branch otherwise.  The CVI
branch of the source iterates every `sub_interfaces()` element with no
`PhysicalVlanInterface` skip; on an address-less VLAN wrapper it reads
attribute `nicid`, which no class of the given sources defines, so the
model keeps such elements unchanged and `set_auth_request_branches` states
nothing about trees containing them (hypothesis `hnov`). -/
def Modifier.set_auth_request (m : Modifier) (interface_id : String)
    (address : Option String) : Modifier :=
  if ["master", "layer2", "ips"].any (fun t => strIn t m.engine.typ) then m
  else
    {m with _data := m._data.map (fun intf =>
      let all_subs := innerSubs intf.typeof intf.data
      if all_subs.any hasCviElem then
        {intf with data := mapDirectSubs (authReqCvi interface_id address) intf.data}
      else
        {intf with data := mapDirectSubs (authReqElse interface_id address) intf.data})}

/-- Truthiness of an optional string value (`None` and `''` are falsy). -/
def truthyS : Option String → Bool
  | some s => s ≠ ""
  | none => false

/-- Modelled from the spec: `smc.elements.helpers.zone_helper` (module not
among the given sources) resolves an optional zone name/element to its
reference string, `None` to `None`; modelled as the identity on the
resolved reference. -/
def zone_helper (z : Option String) : Option String := z

/-- Modelled from the spec: `smc.elements.helpers.logical_intf_helper`
(module not among the given sources) resolves a logical interface
name/element to its reference string; modelled as the identity. -/
def logical_intf_helper (l : String) : String := l

/-- The three inline sub-interface classes accepted as `if_type` by
`InterfaceBuilder.add_l2_inline` (src 2226, 2235-2237). -/
inductive InlineType where
  | inline
  | l2fw
  | ips
  deriving DecidableEq, Repr

/-- The wire type tag (`typeof`) of each inline class. -/
def InlineType.typeof : InlineType → String
  | .inline => "inline_interface"
  | .l2fw => "inline_l2fw_interface"
  | .ips => "inline_ips_interface"

/-- Modelled from the spec: the `create` factory of the inline variants
(`smc/core/sub_interfaces.py` is not among the given sources; spec §4.1:
the factory produces wire-schema data from explicit parameters, §3: an
inline pair is identified by the compound nic id `"a-b"`). -/
def inlineCreate (t : InlineType) (interface_id logical_ref : String)
    (zone_ref : Option String) : SubIfData :=
  {tag := t.typeof, nicid := interface_id,
   logical_interface_ref := some logical_ref, zone_ref := zone_ref}

/-- Modelled from the spec: `_add_vlan_to_inline` of
`smc/core/sub_interfaces.py` (not among the given sources) rewrites the
inline pair's nic id `"a-b"` into its VLAN-qualified form `"a.v1-b.v2"`
(spec §8 scenarios; §3: `"id1.v1-id2.v2"` for inline pairs), using `v1` on
both sides when no second VLAN id is given. -/
def addVlanToInline (d : SubIfData) (vlan_id : String)
    (vlan_id2 : Option String) : SubIfData :=
  match strSplitOn d.nicid "-" with
  | [a, b] =>
    {d with nicid := a ++ "." ++ vlan_id ++ "-" ++ b ++ "." ++ (vlan_id2.getD vlan_id)}
  | _ => d

/-- Modelled from the spec: `ClusterVirtualInterface.create` (spec §3: one
shared virtual address; §6 wire fields).  `nicid` defaults to the interface
id. -/
def cviCreate (interface_id address network_value : String)
    (nicid : Option String) : SubIfData :=
  {tag := cviTag, nicid := nicid.getD interface_id,
   address := some address, network_value := some network_value}

/-- Modelled from the spec: `SingleNodeInterface.create` (spec §3: one
address, used on non-clustered engines; §6 wire fields). -/
def sniCreate (interface_id address network_value : String)
    (nicid : Option String) : SubIfData :=
  {tag := "single_node_interface", nicid := nicid.getD interface_id,
   address := some address, network_value := some network_value}

/-- Modelled from the spec: `NodeInterface.create` (spec §3: one address
per cluster node, carrying `nodeid`; §6 wire fields). -/
def ndiCreate (interface_id address network_value : String) (nodeid : Nat)
    (nicid : Option String) : SubIfData :=
  {tag := "node_interface", nicid := nicid.getD interface_id,
   address := some address, network_value := some network_value,
   nodeid := some nodeid}

/-- `PhysicalVlanInterface.create` (src 1686-1715): the VLAN wire dict with
compound id `"{interface_id}.{vlan_id}"`, an `interfaces` array holding the
optional seed sub-interface, and a resolved zone reference. -/
def physicalVlanCreate (interface_id vlan_id : String)
    (virtual_mapping virtual_resource_name : Option String)
    (zone_ref : Option String) (interface : Option SubIfData) : IntfData :=
  .mk {interface_id := interface_id ++ "." ++ vlan_id,
       interfaces := some (match interface with | some i => [i] | none => []),
       zone_ref := zone_helper zone_ref,
       virtual_mapping := virtual_mapping,
       virtual_resource_name := virtual_resource_name}

/-- `InterfaceBuilder` (src 2103-2119): the staging dict for one top-level
interface.  A field that is `none` stands for a Python attribute that is
absent or `None`; the code below observes absence only through `hasattr`
on `interfaces` and through attribute reads that would raise
`AttributeError`, both modelled explicitly. -/
structure Builder where
  interface_id : Option String := none
  name : Option String := none
  interfaces : Option (List SubIfData) := none
  vlanInterfaces : Option (List IntfData) := none
  zone_ref : Option String := none
  link : Option (List (Option String)) := none
  virtual_mapping : Option String := none
  virtual_resource_name : Option String := none

/-- `InterfaceBuilder.__init__` with no keyword data (src 2113-2119):
`interface_id = None`, `interfaces = []`, and for the `PhysicalInterface`
class additionally `vlanInterfaces = []` and `zone_ref = None`. -/
def freshBuilder (isPhysical : Bool) : Builder :=
  {interface_id := none, interfaces := some [],
   vlanInterfaces := if isPhysical then some [] else none,
   zone_ref := none}

/-- `InterfaceBuilder.__init__` seeded with an existing interface's data
(src 2110-2112): every key/value of the dict becomes a builder attribute. -/
def builderFromData (d : IntfData) : Builder :=
  {interface_id := some d.f.interface_id, name := d.f.name,
   interfaces := d.f.interfaces, vlanInterfaces := d.f.vlanInterfaces,
   zone_ref := d.f.zone_ref, link := d.f.link,
   virtual_mapping := d.f.virtual_mapping,
   virtual_resource_name := d.f.virtual_resource_name}

/-- `self.interface_id` as it reaches the `create` factories and the
`'{}.{}'.format` calls: Python would stringify a `None` id as `"None"`. -/
def Builder.idStr (b : Builder) : String :=
  match b.interface_id with
  | some s => s
  | none => "None"

/-- `InterfaceBuilder.add_cvi_only` (src 2143-2155): append a CVI, with
`auth_request` when management; `AttributeError` when the builder has no
`interfaces` attribute (the append is unguarded). -/
def addCviOnly (b : Builder) (address network_value : String)
    (is_mgmt : Bool) : Except Err Builder :=
  let cvi := cviCreate b.idStr address network_value none
  let cvi := if is_mgmt then {cvi with auth_request := some true} else cvi
  match b.interfaces with
  | some l => .ok {b with interfaces := some (l ++ [cvi])}
  | none => .error .attributeError

/-- `InterfaceBuilder.add_sni_only` (src 2157-2176): append an SNI, with
`auth_request`, `outgoing` and `primary_mgt` when management; the append is
guarded by `hasattr` (a missing `interfaces` attribute is replaced by a
fresh singleton list). -/
def addSniOnly (b : Builder) (address network_value : String)
    (is_mgmt : Bool) : Builder :=
  let sni := sniCreate b.idStr address network_value none
  let sni :=
    if is_mgmt then
      {sni with auth_request := some true, outgoing := some true,
                primary_mgt := some true}
    else sni
  match b.interfaces with
  | some l => {b with interfaces := some (l ++ [sni])}
  | none => {b with interfaces := some [sni]}

/-- `InterfaceBuilder.add_ndi_only` (src 2178-2195): append an NDI, with
`primary_mgt`, `outgoing` and `primary_heartbeat` when management;
`AttributeError` when the builder has no `interfaces` attribute. -/
def addNdiOnly (b : Builder) (address network_value : String) (nodeid : Nat)
    (is_mgmt : Bool) : Except Err Builder :=
  let ndi := ndiCreate b.idStr address network_value nodeid none
  let ndi :=
    if is_mgmt then
      {ndi with primary_mgt := some true, outgoing := some true,
                primary_heartbeat := some true}
    else ndi
  match b.interfaces with
  | some l => .ok {b with interfaces := some (l ++ [ndi])}
  | none => .error .attributeError

/-- `InterfaceBuilder.add_l2_inline` (src 2222-2284).  When the builder has
no sub-interfaces yet, the base inline pair is created (zone-tagged only
when no VLAN id is supplied; `failure_mode` set for non-L2FW types).  When a
VLAN id is supplied, a VLAN child is created on the first interface of the
pair and receives the VLAN-qualified inline sub-interface; for non-L2FW
types its `failure_mode` is copied from the first existing sub-interface
(`self.interfaces[0][if_type.typeof]`, an `IndexError`/`KeyError` when that
lookup cannot be made), and for non-`InlineInterface` types (the layer-3
firewall variants) `vlan_id2` is forced equal to `vlan_id`. -/
def addL2Inline (b : Builder) (interface_id logical_interface_ref : String)
    (vlan_id vlan_id2 : Option String)
    (zone_ref_intf1 zone_ref_intf2 : Option String)
    (if_type : InlineType) (failure_mode_kw : Option String) :
    Except Err Builder := do
  let logical_ref := logical_intf_helper logical_interface_ref
  let ifs ←
    match b.interfaces with
    | none => Except.error Err.attributeError
    | some l => pure l
  let ifs' :=
    if ifs.isEmpty then
      let inline := inlineCreate if_type interface_id logical_ref none
      let inline :=
        if ¬ truthyS vlan_id then
          {inline with zone_ref := zone_helper zone_ref_intf2}
        else inline
      let inline :=
        if if_type ≠ .l2fw then
          {inline with failure_mode := some (failure_mode_kw.getD "normal")}
        else inline
      ifs ++ [inline]
    else ifs
  if truthyS vlan_id then
    let v := vlan_id.getD ""
    let first_intf := (strSplitOn interface_id "-").headD ""
    let vlan := physicalVlanCreate first_intf v none none zone_ref_intf1 none
    let inline_intf :=
      inlineCreate if_type interface_id logical_ref (zone_helper zone_ref_intf2)
    let inline_intf ←
      if if_type ≠ .l2fw then
        match ifs'.head? with
        | none => Except.error Err.indexError
        | some parent =>
          if parent.tag == if_type.typeof then
            pure {inline_intf with failure_mode := parent.failure_mode}
          else Except.error Err.keyError
      else pure inline_intf
    let vlan_id2 := if if_type ≠ .inline then vlan_id else vlan_id2
    let vfl := vlan.f
    let vlan :=
      IntfData.mk {vfl with interfaces := some ((vfl.interfaces.getD []) ++ [addVlanToInline inline_intf v vlan_id2])}
    match b.vlanInterfaces with
    | none => Except.error Err.attributeError
    | some vl =>
      pure {b with interfaces := some ifs', vlanInterfaces := some (vl ++ [vlan])}
  else
    pure {b with interfaces := some ifs'}

/-- `InterfaceBuilder.remove_vlan` (src 2356-2366): keep exactly the VLAN
children whose `interface_id` differs from `"{interface_id}.{vlan_id}"`. -/
def removeVlan (b : Builder) (vlan_id : String) : Except Err Builder :=
  let vlan_str := b.idStr ++ "." ++ vlan_id
  match b.vlanInterfaces with
  | none => .error .attributeError
  | some vl =>
    .ok {b with vlanInterfaces := some (vl.filter (fun vlan => vlan.f.interface_id != vlan_str))}

/-- `InterfaceBuilder.getBuilder` (src 2372-2395): locate the interface via
a fresh `byEngine` decode; an `EngineCommandFailed` from the lookup yields a
fresh builder (tunnel builders have no VLAN fields) seeded with the
requested id and a `None` interface reference, success yields a builder
populated from the found interface's data plus that reference.  Decode
errors other than the lookup failure are not caught. -/
def getBuilder (instanceIsTunnel : Bool) (engine : EngineData)
    (interface_id : String) : Except Err (Builder × Option Intf) :=
  match byEngine engine with
  | .error e => .error e
  | .ok interfaces =>
    match interfaces.get interface_id with
    | .error .engineCommandFailed =>
      .ok ({(if instanceIsTunnel then freshBuilder false else freshBuilder true) with
        interface_id := some interface_id}, none)
    | .error e => .error e
    | .ok interface => .ok (builderFromData interface.data, some interface)

/-- `Interface.has_vlan` (src 344-354): the `vlanInterfaces` key is present
and non-empty. -/
def hasVlan (d : IntfData) : Bool := truthyL d.f.vlanInterfaces

/-- Modelled from the spec: the `vlan_id` property of the decoded
sub-interface variants (`smc/core/sub_interfaces.py` is not among the given
sources).  Spec §3: a VLAN-qualified nic id has the form
`"physical_id.vlan_id"`, and an inline pair with distinct VLANs per side
`"id1.v1-id2.v2"`; the property returns the VLAN part(s), joined by `-`. -/
def subVlanId (s : SubIfData) : String :=
  strIntercalate "-" ((strSplitOn s.nicid "-").filterMap (fun p =>
    if strContainsChar p '.' then some ((strSplitOn p ".").getLastD "") else none))

/-- `PhysicalVlanInterface.vlan_id` (src 1730-1755): for an address-less
VLAN dict, the last component of the compound interface id; when the dict
carries sub-interfaces, the loop leaves the value computed from the last one
(an inline sub-interface contributes the second side's VLAN id). -/
def physVlanVlanId (v : IntfData) : String :=
  let base := (strSplitOn v.f.interface_id ".").getLastD ""
  if truthyL v.f.interfaces then
    match (v.f.interfaces.getD []).getLast? with
    | some s =>
      if isInlineTag s.tag then
        let second_vlan := (strSplitOn ((strSplitOn s.nicid "-").getLastD "") ".").getLastD ""
        if second_vlan == base then base else base ++ "-" ++ second_vlan
      else base
    | none => base
  else base

/-- `.vlan_id` on an element of `sub_interfaces()`. -/
def elemVlanId : SubElem → String
  | .sub s => subVlanId s
  | .physVlan v => physVlanVlanId v

/-- One entry of the `nodes` argument of `change_cluster_ipaddress`
(src 506-510): a dict read through `.get`. -/
structure NodeSpec where
  address : Option String := none
  network_value : Option String := none
  nodeid : Option Nat := none

/-- The externally visible actions a mutation can take: a PUT of the new
interface body (`self.update()`), the engine cache invalidation that
`save()` performs right after (src 307-309), and the routing-table cleanup
query issued after a successful save (the routing module is not among the
given sources; the op records the arguments it is invoked with). -/
inductive NetOp where
  | update (d : IntfData)
  | delCache
  | routeCleanup (nicid : String) (network_value : Option String)

/-- Modelled from the spec: `isinstance(x, NodeInterface)` — spec §3 lists
`NodeInterface` as the per-node variant and `SingleNodeInterface` as the
single-engine variant; the latter specialises the former in the sources not
given, so both tags satisfy the check. -/
def isNodeTag (tag : String) : Bool :=
  tag == "node_interface" || tag == "single_node_interface"

/-- Does this decoded sub-interface fall in the set scanned by the
`change_cluster_ipaddress` loop (src 549-553): either no VLAN filter is
given, or the sub-interface's `vlan_id` equals it. -/
def clusterScanHit (vlan_id : Option String) (s : SubIfData) : Bool :=
  match vlan_id with
  | some vid => subVlanId s == vid
  | none => true

/-- The mutation the `change_cluster_ipaddress` loop applies to one decoded
sub-interface (src 555-566): a CVI gets the new `cvi` address (and network
when given); a node interface gets the address/network of every node entry
whose `nodeid` matches. -/
def changeClusterSub (cvi cvi_network_value : Option String)
    (nodes : List NodeSpec) (vlan_id : Option String) (s : SubIfData) : SubIfData :=
  if clusterScanHit vlan_id s then
    if truthyS cvi && s.tag == cviTag then
      let s := {s with address := cvi}
      if truthyS cvi_network_value then {s with network_value := cvi_network_value} else s
    else if ¬ nodes.isEmpty && isNodeTag s.tag then
      nodes.foldl (fun acc node =>
        if node.nodeid == acc.nodeid then
          {acc with address := node.address, network_value := node.network_value}
        else acc) s
    else s
  else s

/-- Did the loop set `do_save` at this decoded sub-interface? -/
def changeClusterDoSave (cvi : Option String) (nodes : List NodeSpec)
    (vlan_id : Option String) (s : SubIfData) : Bool :=
  clusterScanHit vlan_id s &&
    ((truthyS cvi && s.tag == cviTag) ||
     (¬ nodes.isEmpty && isNodeTag s.tag && nodes.any (fun node => node.nodeid == s.nodeid)))

/-- `Interface.change_cluster_ipaddress` (src 497-577).  A VLANed interface
with no `vlan_id` argument raises `UpdateElementFailed` up front (src
543-546), before anything is touched and before any network operation.
Otherwise the scanned sub-interfaces are mutated in place; when at least one
mutation happened, `save()` (a PUT of the whole body followed by the engine
cache invalidation) and the routing cleanup run.  The result is the final
wire dict of the interface together with the network operations performed;
the address-less-VLAN (`physVlan`) elements are untouched by the loop (the
`isinstance` tests fail for them) and contribute no `do_save`. -/
def change_cluster_ipaddress (intf : Intf) (cvi cvi_network_value : Option String)
    (nodes : List NodeSpec) (vlan_id : Option String) :
    Except Err (IntfData × List NetOp) :=
  if hasVlan intf.data && ¬ truthyS vlan_id then .error .updateElementFailed
  else
    let all_subs := innerSubs intf.typeof intf.data
    let scanned := (all_subs.filterMap (fun e => match e with | .sub s => some s | .physVlan _ => none)).filter (clusterScanHit vlan_id)
    let do_save := scanned.any (changeClusterDoSave cvi nodes vlan_id)
    let newData := mapDirectSubs (changeClusterSub cvi cvi_network_value nodes vlan_id) intf.data
    if do_save then
      let info := (scanned.map (changeClusterSub cvi cvi_network_value nodes vlan_id)).head?
      let ops := [NetOp.update newData, NetOp.delCache] ++
        (match info with
         | some s => [NetOp.routeCleanup s.nicid s.network_value]
         | none => [])
      .ok (newData, ops)
    else .ok (intf.data, [])

/-- `dispatch` (src 40-61): run the update transport call when an existing
interface reference is given, the create call otherwise, passing the
builder body as the JSON payload; on success clear the engine-level cache,
on failure propagate the error with the cache untouched.  The transport
calls are the external collaborators of spec §6, passed in as functions;
the cache is the engine's last-fetched snapshot (`none` = invalidated). -/
def dispatch (builder : Builder) (interface : Option Intf)
    (update_call : Builder → Except Err Unit)
    (create_call : Builder → Except Err Unit)
    (cache : Option EngineData) : Except Err Unit × Option EngineData :=
  let outcome :=
    match interface with
    | some _ => update_call builder
    | none => create_call builder
  match outcome with
  | .error e => (.error e, cache)
  | .ok _ => (.ok (), none)

/-! ## Claim C9: `remove_vlan` with an absent VLAN id is a no-op -/

/-- C9: for every builder whose `vlanInterfaces` attribute is present and in
which no VLAN child carries the compound id `"{interface_id}.{vlan_id}"`,
`remove_vlan(vlan_id)` raises nothing and returns the builder completely
unchanged (`vlanInterfaces` and every other field). -/
theorem remove_vlan_missing_noop (b : Builder) (vid : String)
    (vl : List IntfData) (h : b.vlanInterfaces = some vl)
    (habs : ∀ v ∈ vl, v.f.interface_id ≠ b.idStr ++ "." ++ vid) :
    removeVlan b vid = .ok b := by
  simp only [removeVlan, h]
  have hfilter : vl.filter (fun vlan => vlan.f.interface_id != b.idStr ++ "." ++ vid) = vl := by
    apply List.filter_eq_self.mpr
    intro v hv
    simpa using habs v hv
  rw [hfilter, ← h]

/-- A builder fixture for the C9 witness: interface 1 with VLAN 1.10. -/
def bC9 : Builder :=
  {interface_id := some "1", interfaces := some [],
   vlanInterfaces := some [.mk {interface_id := "1.10"}], zone_ref := none}

/-- Witness for C9 at a concrete input: removing VLAN id 14 from an
interface that only has VLAN 1.10 returns the builder unchanged. -/
theorem remove_vlan_missing_noop_witness :
    bC9.vlanInterfaces = some [.mk {interface_id := "1.10"}] ∧
      removeVlan bC9 "14" = .ok bC9 :=
  ⟨rfl, remove_vlan_missing_noop bC9 "14" [.mk {interface_id := "1.10"}] rfl
    (by intro v hv; simp at hv; subst hv; simp [IntfData.f, Builder.idStr, bC9])⟩

/-! ## Claim C10: `dispatch` invalidates the engine cache iff the transport
call succeeds -/

/-- C10: `dispatch` runs the update transport call in its modify branch and
the create call in its create branch; when the call succeeds the engine
cache is invalidated (`none`), and when it fails the error propagates with
the cache left exactly as it was. -/
theorem dispatch_cache_invalidation (b : Builder) (i : Option Intf)
    (update_call create_call : Builder → Except Err Unit)
    (cache : Option EngineData) :
    ((match i with | some _ => update_call b | none => create_call b) = .ok () →
      dispatch b i update_call create_call cache = (.ok (), none)) ∧
    (∀ e, (match i with | some _ => update_call b | none => create_call b) = .error e →
      dispatch b i update_call create_call cache = (.error e, cache)) := by
  constructor
  · intro h
    simp only [dispatch, h]
  · intro e h
    simp only [dispatch, h]

/-- Engine fixture for the C10 witness. -/
def engC10 : EngineData := {physicalInterfaces := [], typ := "single_fw"}

/-- Witness for C10 at concrete inputs: a successful create invalidates the
cache, a failing create leaves it untouched. -/
theorem dispatch_cache_invalidation_witness :
    dispatch (freshBuilder true) none (fun _ => .ok ()) (fun _ => .ok ())
        (some engC10) = (.ok (), none) ∧
      dispatch (freshBuilder true) none (fun _ => .ok ())
        (fun _ => .error .engineCommandFailed) (some engC10)
        = (.error .engineCommandFailed, some engC10) :=
  ⟨(dispatch_cache_invalidation (freshBuilder true) none (fun _ => .ok ())
      (fun _ => .ok ()) (some engC10)).1 rfl,
   (dispatch_cache_invalidation (freshBuilder true) none (fun _ => .ok ())
      (fun _ => .error .engineCommandFailed) (some engC10)).2
      .engineCommandFailed rfl⟩

/-! ## Claim C8: `change_cluster_ipaddress` on a VLANed interface without a
`vlan_id` fails fast -/

/-- C8: on an interface with VLANs configured, `change_cluster_ipaddress`
without a `vlan_id` raises `UpdateElementFailed` immediately: the error
result carries no mutated interface body and no network operation (the
raise is the first statement of the method, before the sub-interface scan
and before `save()`). -/
theorem change_cluster_ipaddress_vlan_guard (intf : Intf)
    (cvi cvi_network_value : Option String) (nodes : List NodeSpec)
    (h : hasVlan intf.data = true) :
    change_cluster_ipaddress intf cvi cvi_network_value nodes none
      = .error .updateElementFailed := by
  simp [change_cluster_ipaddress, h, truthyS]

/-- Interface fixture for the C8 witness: interface 2 with one VLAN child. -/
def intfC8 : Intf :=
  {name := "Interface 2", typeof := physicalTypeof, href := none,
   data := .mk {interface_id := "2",
                vlanInterfaces := some [.mk {interface_id := "2.7"}]}}

/-- Witness for C8 at a concrete input. -/
theorem change_cluster_ipaddress_vlan_guard_witness :
    hasVlan intfC8.data = true ∧
      change_cluster_ipaddress intfC8 (some "1.1.1.254") none [] none
        = .error .updateElementFailed :=
  ⟨rfl, change_cluster_ipaddress_vlan_guard intfC8 (some "1.1.1.254") none [] rfl⟩

/-! ## Claim C4: which role flags `is_mgmt=True` sets -/

/-- C4 (amended): with `is_mgmt=True`, `add_sni_only` appends a
sub-interface carrying `primary_mgt`, `outgoing` and `auth_request` all
true; `add_ndi_only` appends one carrying `primary_mgt`, `outgoing` and
`primary_heartbeat` true with `auth_request` untouched; `add_cvi_only`
appends one carrying only `auth_request` true with `primary_mgt` and
`outgoing` untouched. -/
theorem add_mgmt_unit_flags (b : Builder) (a n : String) (k : Nat)
    (l : List SubIfData) (h : b.interfaces = some l) :
    (∃ s, (addSniOnly b a n true).interfaces = some (l ++ [s]) ∧
      s.primary_mgt = some true ∧ s.outgoing = some true ∧
      s.auth_request = some true) ∧
    (∃ s, addNdiOnly b a n k true = .ok {b with interfaces := some (l ++ [s])} ∧
      s.primary_mgt = some true ∧ s.outgoing = some true ∧
      s.primary_heartbeat = some true ∧ s.auth_request = none) ∧
    (∃ s, addCviOnly b a n true = .ok {b with interfaces := some (l ++ [s])} ∧
      s.auth_request = some true ∧ s.primary_mgt = none ∧
      s.outgoing = none) := by
  refine ⟨⟨{sniCreate b.idStr a n none with auth_request := some true, outgoing := some true, primary_mgt := some true}, ?_, rfl, rfl, rfl⟩, ⟨{ndiCreate b.idStr a n k none with primary_mgt := some true, outgoing := some true, primary_heartbeat := some true}, ?_, rfl, rfl, rfl, rfl⟩, ⟨{cviCreate b.idStr a n none with auth_request := some true}, ?_, rfl, rfl, rfl⟩⟩
  · simp [addSniOnly, h, sniCreate]
  · simp [addNdiOnly, h, ndiCreate]
  · simp [addCviOnly, h, cviCreate]

/-- Witness for C4 at a concrete input: the fresh physical builder. -/
theorem add_mgmt_unit_flags_witness :
    (freshBuilder true).interfaces = some [] ∧
      (∃ s, (addSniOnly (freshBuilder true) "10.0.0.1" "10.0.0.0/24" true).interfaces
          = some ([] ++ [s]) ∧
        s.primary_mgt = some true ∧ s.outgoing = some true ∧
        s.auth_request = some true) :=
  ⟨rfl, (add_mgmt_unit_flags (freshBuilder true) "10.0.0.1" "10.0.0.0/24" 1 [] rfl).1⟩

/-- Does a sub-interface carry the three management flags of the claim all
true? -/
def mgmtUnit (s : SubIfData) : Bool :=
  s.primary_mgt == some true && s.outgoing == some true &&
    s.auth_request == some true

/-- Counterexample for C4 as stated: at concrete inputs, the sub-interface
appended by `add_cvi_only(..., is_mgmt=True)` and the one appended by
`add_ndi_only(..., is_mgmt=True)` do not carry the three flags
`primary_mgt`, `outgoing`, `auth_request` all true. -/
theorem add_cvi_ndi_mgmt_not_unit :
    ((addCviOnly (freshBuilder true) "1.1.1.1" "1.1.1.0/24" true).toOption.bind
        (fun b => (b.interfaces.getD []).getLast?)).map mgmtUnit = some false ∧
      ((addNdiOnly (freshBuilder true) "2.2.2.1" "2.2.2.0/24" 1 true).toOption.bind
        (fun b => (b.interfaces.getD []).getLast?)).map mgmtUnit = some false :=
  ⟨rfl, rfl⟩

/-! ## Claim C7: the two outcomes of `getBuilder` -/

/-- C7: when the id lookup fails with `EngineCommandFailed` (the not-found
condition), `getBuilder` returns a fresh builder seeded only with the
requested id together with a `None` interface reference; when the lookup
succeeds, it returns a builder populated from the existing interface's full
data together with that interface reference. -/
theorem getBuilder_modes (tun : Bool) (e : EngineData) (id : String)
    (m : Modifier) (h : byEngine e = .ok m) :
    (m.get id = .error .engineCommandFailed →
      getBuilder tun e id
        = .ok ({(if tun then freshBuilder false else freshBuilder true) with
            interface_id := some id}, none)) ∧
    (∀ intf, m.get id = .ok intf →
      getBuilder tun e id = .ok (builderFromData intf.data, some intf)) := by
  constructor
  · intro hget
    simp [getBuilder, h, hget]
  · intro intf hget
    simp [getBuilder, h, hget]

/-- Wire dict fixture for the C7 witness: interface 0 with one single-node
sub-interface. -/
def dC7 : IntfData :=
  .mk {interface_id := "0",
       interfaces := some [{tag := "single_node_interface", nicid := "0",
                            address := some "10.0.0.1",
                            network_value := some "10.0.0.0/24"}],
       link := some []}

/-- Engine fixture for the C7 witness. -/
def engC7 : EngineData :=
  {physicalInterfaces := [[(physicalTypeof, dC7)]], typ := "single_fw"}

/-- The modifier `byEngine` decodes from `engC7`. -/
def mC7 : Modifier :=
  ⟨[⟨"Interface 0", physicalTypeof, none, dC7⟩], engC7⟩

/-- Witness for C7 at concrete inputs: looking up the absent id 9 yields the
fresh seeded builder and no reference; looking up the present id 0 yields
the populated builder and the found reference. -/
theorem getBuilder_modes_witness :
    byEngine engC7 = .ok mC7 ∧
      mC7.get "9" = .error .engineCommandFailed ∧
      getBuilder false engC7 "9"
        = .ok ({freshBuilder true with interface_id := some "9"}, none) ∧
      getBuilder false engC7 "0"
        = .ok (builderFromData dC7, some ⟨"Interface 0", physicalTypeof, none, dC7⟩) :=
  ⟨rfl, rfl,
   (getBuilder_modes false engC7 "9" mC7 rfl).1 rfl,
   (getBuilder_modes false engC7 "0" mC7 rfl).2
     ⟨"Interface 0", physicalTypeof, none, dC7⟩ rfl⟩

/-! ## Claim C1: the `set_unset` sweep -/

/-- `setattr` on a role flag never changes the nic id. -/
theorem setAttr_nicid (s : SubIfData) (a : RoleAttr) (b : Bool) :
    (setAttr s a b).nicid = s.nicid := by
  cases a <;> rfl

/-- Reading back the flag just written. -/
theorem getAttr_setAttr (s : SubIfData) (a : RoleAttr) (b : Bool) :
    getAttr (setAttr s a b) a = some b := by
  cases a <;> rfl

/-- All elements yielded by `sub_interfaces()` across the engine's
interfaces, in scan order — the list the `set_unset`/`set_auth_request`
sweeps walk. -/
def engineSubElems (m : Modifier) : List SubElem :=
  (m._data.map (fun intf => innerSubs intf.typeof intf.data)).flatten

/-- Sweeping every interface of a list and flattening equals flattening and
transforming each element. -/
theorem engineSubElems_map (l : List Intf) (g : SubIfData → SubIfData) :
    ((l.map (fun intf => {intf with data := mapDirectSubs g intf.data})).map
        (fun intf => innerSubs intf.typeof intf.data)).flatten
      = ((l.map (fun intf => innerSubs intf.typeof intf.data)).flatten).map
          (SubElem.onSub g) := by
  induction l with
  | nil => simp
  | cons x xs ih =>
    simp only [List.map_cons, List.flatten_cons, List.map_append, innerSubs_map, ih]

/-- C1 (amended): `set_unset(id, attr)` with no address transforms every
element of the engine-wide `sub_interfaces()` scan in place: address-less
VLAN elements are untouched, and each decoded sub-interface keeps its nic
id and ends with the attribute equal to `nicid == str(id)` whenever the
attribute was present, untouched (`None`) whenever it was absent.  In
particular every sub-interface whose nic id matches — there may be several,
e.g. a cluster's CVI and NDIs share the interface's nic id — ends true, not
exactly one. -/
theorem set_unset_sweep (m : Modifier) (id : String) (attr : RoleAttr) :
    engineSubElems (m.set_unset id attr none)
        = (engineSubElems m).map (SubElem.onSub (setUnsetSub id attr none))
      ∧ (∀ s, (setUnsetSub id attr none s).nicid = s.nicid)
      ∧ (∀ s, getAttr (setUnsetSub id attr none s) attr
          = if (getAttr s attr).isSome then some (s.nicid == id) else none) := by
  refine ⟨?_, ?_, ?_⟩
  · simp only [engineSubElems, Modifier.set_unset]
    exact engineSubElems_map m._data (setUnsetSub id attr none)
  · intro s
    simp only [setUnsetSub]
    split <;> [skip; rfl]
    split <;> simp [setAttr_nicid]
  · intro s
    simp only [setUnsetSub]
    split
    · rename_i h1
      split
      · rename_i h2
        simp [getAttr_setAttr, h1, h2]
      · rename_i h2
        simp only [Bool.not_eq_true] at h2
        simp [getAttr_setAttr, h1, h2]
    · rename_i h1
      simp only [Option.isSome] at h1
      split at h1 <;> simp_all

/-- CVI fixture for the C1 counterexample (a cluster interface's CVI and
NDI share the nic id `"0"`). -/
def subCviC1 : SubIfData :=
  {tag := cviTag, nicid := "0", address := some "1.1.1.250",
   network_value := some "1.1.1.0/24", primary_mgt := some false,
   outgoing := some false, auth_request := some false}

/-- NDI fixture for the C1 counterexample. -/
def subNdiC1 : SubIfData :=
  {tag := "node_interface", nicid := "0", address := some "1.1.1.2",
   network_value := some "1.1.1.0/24", nodeid := some 1,
   primary_mgt := some false, outgoing := some false,
   auth_request := some false}

/-- A cluster engine tree for the C1 counterexample: one interface whose
`interfaces` array holds the CVI and one NDI, both with nic id `"0"`. -/
def mC1 : Modifier :=
  ⟨[⟨"Interface 0", physicalTypeof, none,
     .mk {interface_id := "0", interfaces := some [subCviC1, subNdiC1]}⟩],
   ⟨[], "fw_cluster"⟩⟩

/-- How many decoded sub-interfaces of the engine have the attribute equal
to `True`. -/
def countAttrTrue (m : Modifier) (attr : RoleAttr) : Nat :=
  (engineSubElems m).countP (fun e =>
    match e with
    | .sub s => getAttr s attr == some true
    | .physVlan _ => false)

/-- Counterexample for C1 as stated: on a cluster interface whose CVI and
NDI share nic id `"0"`, `set_unset("0", "primary_mgt")` leaves TWO
sub-interfaces with the attribute true — not exactly one. -/
theorem set_unset_not_exactly_one :
    countAttrTrue (mC1.set_unset "0" .primary_mgt none) .primary_mgt = 2 ∧
      countAttrTrue (mC1.set_unset "0" .primary_mgt none) .primary_mgt ≠ 1 :=
  ⟨rfl, by decide⟩

/-! ## Claim C3: `set_auth_request` -/

/-- The CVI-branch update in one equation: `auth_request` ends true exactly
for a CVI whose nic id (and, when given, address) matches; every other
element swept by this branch ends false. -/
theorem authReqCvi_auth (id : String) (addr : Option String) (s : SubIfData) :
    (authReqCvi id addr s).auth_request
      = some ((s.nicid == id) && (s.tag == cviTag) &&
          (match addr with | some a => s.address == some a | none => true)) := by
  simp only [authReqCvi]
  cases addr with
  | none =>
    split <;> rename_i h1
    · split <;> rename_i h2 <;> simp_all
    · simp_all
  | some a =>
    split <;> rename_i h1
    · split <;> rename_i h2
      · split <;> rename_i h3 <;> try simp_all
        split <;> rename_i h4 <;> simp_all
      · simp_all
    · simp_all

/-- The non-CVI-branch update in one equation. -/
theorem authReqElse_auth (id : String) (addr : Option String) (s : SubIfData) :
    (authReqElse id addr s).auth_request
      = some ((s.nicid == id) &&
          (match addr with | some a => s.address == some a | none => true)) := by
  simp only [authReqElse]
  cases addr with
  | none =>
    split <;> rename_i h1 <;> simp_all
  | some a =>
    split <;> rename_i h1
    · split <;> rename_i h3 <;> try simp_all
      split <;> rename_i h4 <;> simp_all
    · simp_all

/-- Per-interface branch selection of `set_auth_request`, flattened. -/
theorem set_auth_map_aux (l : List Intf) (id : String) (addr : Option String) :
    (l.map (fun intf =>
        if (innerSubs intf.typeof intf.data).any hasCviElem then
          {intf with data := mapDirectSubs (authReqCvi id addr) intf.data}
        else
          {intf with data := mapDirectSubs (authReqElse id addr) intf.data})).map
        (fun intf => innerSubs intf.typeof intf.data)
      = l.map (fun intf =>
          (innerSubs intf.typeof intf.data).map (SubElem.onSub
            (if (innerSubs intf.typeof intf.data).any hasCviElem then
              authReqCvi id addr
             else authReqElse id addr))) := by
  induction l with
  | nil => simp
  | cons x xs ih =>
    simp only [List.map_cons]
    rw [ih]
    congr 1
    by_cases h : (innerSubs x.typeof x.data).any hasCviElem = true
    · rw [if_pos h, if_pos h]
      exact innerSubs_map x.typeof (authReqCvi id addr) x.data
    · rw [if_neg h, if_neg h]
      exact innerSubs_map x.typeof (authReqElse id addr) x.data

/-- Is this `sub_interfaces()` element a decoded sub-interface variant (as
opposed to an address-less `PhysicalVlanInterface` wrapper)? -/
def isDecodedSub : SubElem → Bool
  | .sub _ => true
  | .physVlan _ => false

/-- C3 (amended): on an engine none of whose `sub_interfaces()` lists
contains an address-less `PhysicalVlanInterface` element (hypothesis
`hnov` — on such an element the CVI branch of the source, src 2068-2081,
reads attribute `nicid`, which no class of the given sources defines, so
its behavior there is not derivable), `set_auth_request` is a no-op for
engine types containing `master`, `layer2` or `ips`.  Otherwise the
branching is per top-level interface, not engine-wide: an interface whose
own sub-interfaces contain a CVI is swept with the CVI rule (only a
matching CVI can end with `auth_request` true, everything else on that
interface ends false), while every other interface is swept with the plain
rule (its sub-interface ends true exactly on a nic id — and, when given,
address — match), even when some other interface of the engine holds a
CVI. -/
theorem set_auth_request_branches (m : Modifier) (id : String)
    (addr : Option String)
    (hnov : ∀ intf ∈ m._data,
      (innerSubs intf.typeof intf.data).all isDecodedSub = true) :
    (["master", "layer2", "ips"].any (fun t => strIn t m.engine.typ) = true →
      m.set_auth_request id addr = m)
  ∧ (["master", "layer2", "ips"].any (fun t => strIn t m.engine.typ) = false →
      (m.set_auth_request id addr)._data.map (fun intf => innerSubs intf.typeof intf.data)
        = m._data.map (fun intf =>
            (innerSubs intf.typeof intf.data).map (SubElem.onSub
              (if (innerSubs intf.typeof intf.data).any hasCviElem then
                authReqCvi id addr
               else authReqElse id addr))))
  ∧ (∀ s, (authReqCvi id addr s).auth_request
      = some ((s.nicid == id) && (s.tag == cviTag) &&
          (match addr with | some a => s.address == some a | none => true)))
  ∧ (∀ s, (authReqElse id addr s).auth_request
      = some ((s.nicid == id) &&
          (match addr with | some a => s.address == some a | none => true))) := by
  refine ⟨?_, ?_, authReqCvi_auth id addr, authReqElse_auth id addr⟩
  · intro h
    simp [Modifier.set_auth_request, h]
  · intro h
    simp only [Modifier.set_auth_request, h, Bool.false_eq_true, if_false]
    exact set_auth_map_aux m._data id addr

/-- An engine tree for the C3 counterexample and witness: interface 0 is a
cluster interface carrying a CVI, interface 1 carries only a node
interface; the engine type is a plain single firewall. -/
def mC3 : Modifier :=
  ⟨[⟨"Interface 0", physicalTypeof, none,
     .mk {interface_id := "0", interfaces :=
       some [{tag := cviTag, nicid := "0", address := some "1.1.1.1",
              auth_request := some true},
             {tag := "node_interface", nicid := "0",
              auth_request := some false}]}⟩,
    ⟨"Interface 1", physicalTypeof, none,
     .mk {interface_id := "1", interfaces :=
       some [{tag := "node_interface", nicid := "1",
              address := some "2.2.2.1", auth_request := some false}]}⟩],
   ⟨[], "single_fw"⟩⟩

/-- Counterexample for C3 as stated: the engine `mC3` has a CVI among its
sub-interfaces, yet after `set_auth_request("1")` a sub-interface that is
not a CVI (the node interface of interface 1) holds `auth_request = True` —
the CVI-only eligibility is per interface, not engine-wide. -/
theorem set_auth_request_cvi_not_engine_global :
    (engineSubElems mC3).any hasCviElem = true ∧
      (engineSubElems (mC3.set_auth_request "1" none)).any (fun e =>
        match e with
        | .sub s => s.auth_request == some true && !(s.tag == cviTag)
        | .physVlan _ => false) = true :=
  ⟨rfl, rfl⟩

/-- A master engine for the no-op part of the C3 witness. -/
def mMaster : Modifier :=
  ⟨[⟨"Interface 0", physicalTypeof, none,
     .mk {interface_id := "0", interfaces :=
       some [{tag := "node_interface", nicid := "0",
              auth_request := some false}]}⟩],
   ⟨[], "master_engine"⟩⟩

/-- Witness for C3 at concrete inputs: the master engine is untouched; on
the single firewall the per-interface branch equation holds. -/
theorem set_auth_request_branches_witness :
    (["master", "layer2", "ips"].any (fun t => strIn t mMaster.engine.typ) = true ∧
      mMaster.set_auth_request "9" none = mMaster) ∧
    (["master", "layer2", "ips"].any (fun t => strIn t mC3.engine.typ) = false ∧
      (mC3.set_auth_request "1" none)._data.map (fun intf => innerSubs intf.typeof intf.data)
        = mC3._data.map (fun intf =>
            (innerSubs intf.typeof intf.data).map (SubElem.onSub
              (if (innerSubs intf.typeof intf.data).any hasCviElem then
                authReqCvi "1" none
               else authReqElse "1" none)))) :=
  ⟨⟨rfl, (set_auth_request_branches mMaster "9" none (by decide)).1 rfl⟩,
   ⟨rfl, (set_auth_request_branches mC3 "1" none (by decide)).2.1 rfl⟩⟩

/-! ## Claim C2: `add_l2_inline` and the shared VLAN id -/

/-- C2 (amended): `add_l2_inline` on a builder with no sub-interfaces yet
and a VLAN id produces one new VLAN child on the first interface of the
pair, whose inline sub-interface nic id is `"a.v-c.v2"` — where the second
side's VLAN id `v2` is the caller's `vlan_id2` (defaulting to `vlan_id`)
exactly when `if_type` is `InlineInterface` (the variant used on L2FW/IPS
engines), and is forced equal to `vlan_id` for the other two variants
(`InlineIPSInterface`/`InlineL2FWInterface`, the ones used on layer-3
firewalls). -/
theorem addL2Inline_vlan_ids (bld : Builder) (vl : List IntfData)
    (iid lref a c v : String) (v2 : Option String) (zr1 zr2 : Option String)
    (t : InlineType) (fm : Option String)
    (hifs : bld.interfaces = some [])
    (hvl : bld.vlanInterfaces = some vl)
    (hsplit : strSplitOn iid "-" = [a, c])
    (hv : v ≠ "") :
    ∃ b' newVlan,
      addL2Inline bld iid lref (some v) v2 zr1 zr2 t fm = .ok b'
      ∧ b'.vlanInterfaces = some (vl ++ [newVlan])
      ∧ newVlan.f.interface_id = a ++ "." ++ v
      ∧ (newVlan.f.interfaces.getD []).map SubIfData.nicid
          = [a ++ "." ++ v ++ "-" ++ c ++ "." ++
              (if t = .inline then v2.getD v else v)] := by
  cases t <;>
    simp only [addL2Inline, hifs, hvl, logical_intf_helper, truthyS, hv,
      ne_eq, not_false_eq_true, List.isEmpty_nil, if_true,
      ite_true, ite_false, ite_not, hsplit, List.headD_cons,
      inlineCreate, physicalVlanCreate, addVlanToInline, InlineType.typeof,
      zone_helper, IntfData.f] <;>
    (try simp [hsplit, addVlanToInline, IntfData.f, Option.getD_some]) <;>
    exact ⟨_, rfl, _, rfl, rfl, rfl⟩

/-- Counterexample for C2 as stated: at the claim's concrete inputs the
outcome is the opposite pairing — with `if_type=InlineIPSInterface` the
resulting nic id is `"2.10-3.10"` (not `"2.10-3.20"`), and with
`if_type=InlineInterface` it is `"2.10-3.20"` (not `"2.10-3.10"`). -/
theorem addL2Inline_ips_shares_vlan :
    ((addL2Inline (freshBuilder true) "2-3" "lref" (some "10") (some "20")
        none none .ips none).toOption.bind
          (fun b => (b.vlanInterfaces.getD []).getLast?)).map
        (fun vlan => (vlan.f.interfaces.getD []).map SubIfData.nicid)
      = some ["2.10-3.10"]
    ∧ ((addL2Inline (freshBuilder true) "2-3" "lref" (some "10") (some "20")
        none none .inline none).toOption.bind
          (fun b => (b.vlanInterfaces.getD []).getLast?)).map
        (fun vlan => (vlan.f.interfaces.getD []).map SubIfData.nicid)
      = some ["2.10-3.20"]
    ∧ ("2.10-3.10" : String) ≠ "2.10-3.20" :=
  ⟨rfl, rfl, by decide⟩

/-- Witness for C2 at concrete inputs (the IPS variant of the scenario). -/
theorem addL2Inline_vlan_ids_witness :
    (freshBuilder true).interfaces = some [] ∧
      strSplitOn "2-3" "-" = ["2", "3"] ∧
      (∃ b' newVlan,
        addL2Inline (freshBuilder true) "2-3" "lref" (some "10") (some "20")
            none none .ips none = .ok b'
        ∧ b'.vlanInterfaces = some ([] ++ [newVlan])
        ∧ newVlan.f.interface_id = "2" ++ "." ++ "10"
        ∧ (newVlan.f.interfaces.getD []).map SubIfData.nicid
            = ["2" ++ "." ++ "10" ++ "-" ++ "3" ++ "." ++
                (if InlineType.ips = .inline then (some "20").getD "10" else "10")]) :=
  ⟨rfl, rfl,
   addL2Inline_vlan_ids (freshBuilder true) [] "2-3" "lref" "2" "3" "10"
     (some "20") none none .ips none rfl rfl rfl (by decide)⟩

/-! ## Claim C6: `get` on the two sides of an inline pair -/

/-- `find?` returns the element when it is the only one satisfying the
predicate. -/
theorem find?_eq_of_unique {α : Type} (l : List α) (p : α → Bool) (x : α)
    (hx : x ∈ l) (hpx : p x = true)
    (huniq : ∀ y ∈ l, p y = true → y = x) : l.find? p = some x := by
  induction l with
  | nil => cases hx
  | cons a as ih =>
    by_cases h : p a = true
    · have ha : a = x := huniq a (List.mem_cons_self a as) h
      subst ha
      simp [List.find?_cons, h]
    · have hxas : x ∈ as := by
        cases hx with
        | head => exact absurd hpx h
        | tail _ hmem => exact hmem
      have h' : p a = false := by
        cases hpa : p a with
        | true => exact absurd hpa h
        | false => rfl
      simp only [List.find?_cons, h']
      exact ih hxas (fun y hy hpy => huniq y (List.mem_cons_of_mem a hy) hpy)

/-- C6 (amended): for an engine holding an inline interface whose pair nic
id is `"a-c"`, provided no other top-level interface of the engine resolves
any of the three queries under `get`'s matching rules, `get("a")`,
`get("c")` and `get("a-c")` all succeed and return that same top-level
interface. -/
theorem get_inline_resolves (m : Modifier) (intf : Intf) (s : SubIfData)
    (a c : String)
    (hmem : intf ∈ m._data)
    (hs : SubElem.sub s ∈ innerSubs intf.typeof intf.data)
    (hn : s.nicid = a ++ "-" ++ c)
    (hdash : strContainsChar (a ++ "-" ++ c) '-' = true)
    (hsplit : strSplitOn (a ++ "-" ++ c) "-" = [a, c])
    (huniq : ∀ j ∈ m._data,
      (intfMatches a j || intfMatches c j || intfMatches (a ++ "-" ++ c) j) = true →
        j = intf) :
    m.get a = .ok intf ∧ m.get c = .ok intf ∧
      m.get (a ++ "-" ++ c) = .ok intf := by
  have hnonempty : innerSubs intf.typeof intf.data ≠ [] := by
    intro hempty
    rw [hempty] at hs
    cases hs
  have hmatch : ∀ q : String, subMatches q intf (SubElem.sub s) = true →
      intfMatches q intf = true := by
    intro q hsm
    unfold intfMatches
    cases hl : innerSubs intf.typeof intf.data with
    | nil => exact absurd hl hnonempty
    | cons e es =>
      rw [hl] at hs
      exact List.any_eq_true.mpr ⟨SubElem.sub s, hs, hsm⟩
  have hket : ∀ q : String, intfMatches q intf = true →
      (∀ j ∈ m._data, intfMatches q j = true → j = intf) →
      m.get q = .ok intf := by
    intro q hq huq
    unfold Modifier.get
    rw [find?_eq_of_unique m._data (intfMatches q) intf hmem hq huq]
  refine ⟨?_, ?_, ?_⟩
  · refine hket a (hmatch a ?_) (fun j hj hpj => huniq j hj (by simp [hpj]))
    simp [subMatches, hn, hdash, hsplit]
  · refine hket c (hmatch c ?_) (fun j hj hpj => huniq j hj (by simp [hpj]))
    simp [subMatches, hn, hdash, hsplit]
  · refine hket (a ++ "-" ++ c) (hmatch (a ++ "-" ++ c) ?_)
      (fun j hj hpj => huniq j hj (by simp [hpj]))
    simp [subMatches, hn]

/-- The inline sub-interface fixture with pair nic id `"2-3"`. -/
def subYC6 : SubIfData := {tag := "inline_interface", nicid := "2-3"}

/-- An inline top-level interface fixture holding `subYC6`. -/
def intfYC6 : Intf :=
  ⟨"B", physicalTypeof, none,
   .mk {interface_id := "2", interfaces := some [subYC6]}⟩

/-- A plain top-level interface fixture whose sub-interface nic id is the
bare `"2"`. -/
def intfXC6 : Intf :=
  ⟨"A", physicalTypeof, none,
   .mk {interface_id := "2", interfaces :=
     some [{tag := "single_node_interface", nicid := "2",
            address := some "5.5.5.1"}]}⟩

/-- An engine holding both fixtures, the plain one first. -/
def mC6 : Modifier := ⟨[intfXC6, intfYC6], ⟨[], "single_fw"⟩⟩

/-- Counterexample for C6 as stated: the engine `mC6` contains an inline
interface with pair id `"2-3"`, yet `get("2")` resolves to the other
(plain) interface while `get("2-3")` resolves to the inline one — the three
calls do not all return the same top-level interface. -/
theorem get_inline_conflicting_id :
    subYC6.nicid = "2-3" ∧
      mC6.get "2" = .ok intfXC6 ∧
      mC6.get "2-3" = .ok intfYC6 ∧
      intfXC6.name ≠ intfYC6.name :=
  ⟨rfl, rfl, rfl, by decide⟩

/-- An engine holding only the inline interface. -/
def mC6w : Modifier := ⟨[intfYC6], ⟨[], "single_fw"⟩⟩

/-- Witness for C6 at concrete inputs: on the conflict-free engine all
three queries resolve to the inline interface. -/
theorem get_inline_resolves_witness :
    subYC6.nicid = "2" ++ "-" ++ "3" ∧
      mC6w.get "2" = .ok intfYC6 ∧ mC6w.get "3" = .ok intfYC6 ∧
      mC6w.get ("2" ++ "-" ++ "3") = .ok intfYC6 :=
  ⟨rfl,
   get_inline_resolves mC6w intfYC6 subYC6 "2" "3"
     (List.Mem.head _) (List.Mem.head _) rfl rfl rfl
     (by intro j hj _; simpa [mC6w] using hj)⟩

/-! ## Claim C5: serialize/deserialize round trip -/

/-- A successfully decoded entry records its own tag and dict, and decoding
it again from that pair reproduces it exactly. -/
theorem processEntry_ok (p : String × IntfData) (i : Intf)
    (h : processEntry p = .ok i) :
    i.typeof = p.1 ∧ i.data = p.2 ∧ processEntry (i.typeof, i.data) = .ok i := by
  unfold processEntry at h
  cases hsub : extract_sub_interface p.2 with
  | error e => simp only [hsub] at h; exact nomatch h
  | ok subif =>
    simp only [hsub] at h
    cases hname : intfDisplayName p.2 subif with
    | error e => simp only [hname] at h; exact nomatch h
    | ok name =>
      simp only [hname] at h
      cases href : intfHref p.2 with
      | error e => simp only [href] at h; exact nomatch h
      | ok hr =>
        simp only [href, Except.ok.injEq] at h
        subst h
        refine ⟨rfl, rfl, ?_⟩
        unfold processEntry
        simp only [hsub, hname, href]

/-- Re-decoding the serialized `(typeof, data)` pairs of an already decoded
interface list reproduces that list. -/
theorem mapM_processEntry_roundtrip (l : List (String × IntfData))
    (is : List Intf) (h : l.mapM processEntry = .ok is) :
    (is.map (fun i => (i.typeof, i.data))).mapM processEntry = .ok is := by
  induction l generalizing is with
  | nil =>
    rw [List.mapM_nil] at h
    cases h
    rfl
  | cons x xs ih =>
    rw [List.mapM_cons] at h
    cases hx : processEntry x with
    | error e => rw [hx] at h; cases h
    | ok y =>
      rw [hx] at h
      cases hxs : xs.mapM processEntry with
      | error e =>
        rw [hxs] at h
        cases h
      | ok ys =>
        rw [hxs] at h
        cases h
        have hy := processEntry_ok x y hx
        rw [List.map_cons, List.mapM_cons, hy.2.2, ih ys hxs]
        rfl

/-- Serializing singleton-keyed dicts and flattening recovers the
`(typeof, data)` pairs. -/
theorem flatten_singletons (l : List Intf) :
    ((l.map (fun i => [(i.typeof, i.data)])).flatten)
      = l.map (fun i => (i.typeof, i.data)) := by
  induction l <;> simp_all

/-- C5: for every engine snapshot that `byEngine` decodes successfully,
re-serializing through the `data` property and decoding the result again
with `byEngine` yields exactly the same decoded interface list (names,
hrefs and wire dicts included), and serializing once more gives the same
snapshot — serialize∘deserialize is idempotent. -/
theorem byEngine_data_roundtrip (e : EngineData) (m : Modifier)
    (h : byEngine e = .ok m) :
    byEngine m.dataProp = .ok ⟨m._data, m.dataProp⟩ ∧
      Modifier.dataProp ⟨m._data, m.dataProp⟩ = m.dataProp := by
  unfold byEngine at h
  cases hm : e.physicalInterfaces.flatten.mapM processEntry with
  | error err => rw [hm] at h; cases h
  | ok is =>
    rw [hm] at h
    cases h
    constructor
    · unfold byEngine
      simp only [Modifier.dataProp, flatten_singletons]
      rw [mapM_processEntry_roundtrip _ is hm]
      rfl
    · rfl

/-- Wire dict fixture for the C5 witness. -/
def dC5 : IntfData :=
  .mk {interface_id := "0", name := some "Interface 0",
       interfaces := some [{tag := "single_node_interface", nicid := "0",
                            address := some "7.7.7.1",
                            network_value := some "7.7.7.0/24"}],
       link := some [some "/engine/intf/0"]}

/-- Engine snapshot fixture for the C5 witness. -/
def engC5 : EngineData :=
  {physicalInterfaces := [[(physicalTypeof, dC5)]], typ := "single_fw"}

/-- The modifier decoded from `engC5`. -/
def mC5 : Modifier :=
  ⟨[⟨"Interface 0", physicalTypeof, some "/engine/intf/0", dC5⟩], engC5⟩

/-- Witness for C5 at a concrete input. -/
theorem byEngine_data_roundtrip_witness :
    byEngine engC5 = .ok mC5 ∧
      byEngine mC5.dataProp = .ok ⟨mC5._data, mC5.dataProp⟩ ∧
      Modifier.dataProp ⟨mC5._data, mC5.dataProp⟩ = mC5.dataProp :=
  ⟨rfl, (byEngine_data_roundtrip engC5 mC5 rfl).1,
   (byEngine_data_roundtrip engC5 mC5 rfl).2⟩

end Smc
